import Mathlib

/-!
# ISA1000 haptic motor driver (`drivers/misc/isa1000.c`)

A shallow embedding of the driver's functions, followed by the properties
established for them.

Conventions of the embedding:

* C `int` values are mathematical integers (`Int`); where a C operation can
  leave the 32-bit range the result is reduced with `wrapInt32` /
  `wrapUInt32`.
* The driver instance `struct isa1000_vib` is a record that is passed in and
  returned (explicit state passing).
* Every call a function makes into the kernel (mutex, hrtimer, workqueue, PWM,
  GPIO, sysfs) and every access to `vib->state` is recorded, in program
  order, as an `Event`; the list of events is returned next to the new
  record.  Not recorded are the log calls (`pr_err`, `dev_err`, `dev_info`)
  and the calls that only read the platform description
  (`of_get_named_gpio_flags`, `of_property_read_u32`, `gpio_is_valid`,
  the `drvdata` accessors).
* Outcomes of external calls (return codes of the PWM port, of the GPIO
  requests, ...) are parameters.
-/

namespace Isa1000

/-! ## Machine integers -/

/-- The value of a C `int` (32-bit two's complement) that receives `n`. -/
def wrapInt32 (n : Int) : Int :=
  if n % 4294967296 < 2147483648 then n % 4294967296 else n % 4294967296 - 4294967296

/-- The value of a C `unsigned int` (32 bits) that receives `n`. -/
def wrapUInt32 (n : Int) : Nat := (n % 4294967296).toNat

/-- The constant `NSEC_PER_SEC` of `linux/time.h`. -/
def NSEC_PER_SEC : Nat := 1000000000

/-! ## Data model -/

/-- One recorded action: a call into the kernel, or an access to `vib->state`.
`pwm_free` is the kernel call that releases a channel obtained with
`pwm_request`; the driver source contains no call of it. -/
inductive Event where
  | mutex_init
  | mutex_lock
  | mutex_unlock
  | mutex_destroy
  | INIT_WORK
  | hrtimer_init
  | hrtimer_cancel
  | hrtimer_start (secs nsecs : Int)
  | schedule_work
  | cancel_work_sync
  | state_store (v : Int)
  | state_load
  | pwm_config (duty_ns period_ns : Int)
  | pwm_enable
  | pwm_disable
  | gpio_set_value_cansleep (gpio value : Int)
  | gpio_request (gpio : Int)
  | gpio_free (gpio : Int)
  | gpio_direction_output (gpio value : Int)
  | pwm_request (channel : Int)
  | pwm_free
  | timed_output_dev_register
  | timed_output_dev_unregister
  | device_create_file (i : Int)
  | device_remove_file (i : Int)
  deriving DecidableEq, Repr

/-- The record `struct isa1000_vib`.

* `pwm` is the pointer returned by `pwm_request`, as a signed machine word;
* `work_pending` is the pending bit of `struct work_struct work`;
* `vib_timer` is `none` while the hrtimer is inactive and `some (secs, nsecs)`
  while it is armed, `(secs, nsecs)` being the two arguments of `ktime_set`
  whose result was handed to `hrtimer_start` in `HRTIMER_MODE_REL`;
* the mutex carries no data: its use is visible in the event lists. -/
structure isa1000_vib where
  gpio_isa1000_en : Int
  gpio_haptic_en : Int
  timeout : Int
  pwm_channel : Int
  pwm_frequency : Nat
  pwm_duty_percent : Int
  pwm : Int
  work_pending : Bool
  vib_timer : Option (Int × Int)
  state : Int
  deriving DecidableEq, Repr

/-- The static instance `vib_dev`: the two initialised members, every other
member zero. -/
def vib_dev : isa1000_vib :=
  { gpio_isa1000_en := 0, gpio_haptic_en := 0, timeout := 0, pwm_channel := 0,
    pwm_frequency := 25000, pwm_duty_percent := 100, pwm := 0,
    work_pending := false, vib_timer := none, state := 0 }

/-- Return codes of the two fallible PWM calls made by `isa1000_set_state`. -/
structure PwmPort where
  config_rc : Int
  enable_rc : Int
  deriving DecidableEq, Repr

/-- The C enumeration `enum hrtimer_restart`. -/
inductive hrtimer_restart where
  | HRTIMER_NORESTART
  | HRTIMER_RESTART
  deriving DecidableEq, Repr

/-! ## Hardware update -/

/-- The local `pwm_period_ns` of `isa1000_set_state`:
`NSEC_PER_SEC / vib->pwm_frequency`, stored in an `unsigned int`. -/
def pwm_period_ns (vib : isa1000_vib) : Nat :=
  wrapUInt32 ((NSEC_PER_SEC / vib.pwm_frequency : Nat) : Int)

/-- The first argument of `pwm_config` in `isa1000_set_state`:
`(pwm_period_ns * vib->pwm_duty_percent) / 100`, computed in `unsigned int`. -/
def pwm_duty_ns (vib : isa1000_vib) : Nat :=
  wrapUInt32 ((pwm_period_ns vib : Int) * vib.pwm_duty_percent) / 100

/-- The function `isa1000_set_state`.  The result is `none` when the division
by `vib->pwm_frequency` is a division by zero; otherwise the return code and
the calls made.  `pwm_config` takes two `int` parameters. -/
def isa1000_set_state (hw : PwmPort) (vib : isa1000_vib) (on_ : Int) :
    Option (Int × List Event) :=
  if on_ ≠ 0 then
    if vib.pwm_frequency = 0 then none
    else
      let cfg := Event.pwm_config (wrapInt32 (pwm_duty_ns vib)) (wrapInt32 (pwm_period_ns vib))
      if hw.config_rc < 0 then some (hw.config_rc, [cfg])
      else if hw.enable_rc < 0 then some (hw.enable_rc, [cfg, Event.pwm_enable])
      else some (0, [cfg, Event.pwm_enable,
                     Event.gpio_set_value_cansleep vib.gpio_isa1000_en 1])
  else
    some (0, [Event.gpio_set_value_cansleep vib.gpio_isa1000_en 0, Event.pwm_disable])

/-- The work function `isa1000_update`: reads `vib->state` and passes it to
`isa1000_set_state`, whose return code it drops. -/
def isa1000_update (hw : PwmPort) (vib : isa1000_vib) : Option (List Event) :=
  (isa1000_set_state hw vib vib.state).map fun r => Event.state_load :: r.2

/-! ## Activation requests and the deadline timer -/

/-- The function `isa1000_enable`.  `value / 1000` and `value % 1000` are C
operations on `int` (truncating); the product is an `int`.  The pair recorded
with `hrtimer_start` holds the two argument expressions of `ktime_set` as
evaluated in `int`; for non-negative values the conversion to the parameter
types of `ktime_set` (`long`, `unsigned long`) changes nothing. -/
def isa1000_enable (vib : isa1000_vib) (value : Int) : isa1000_vib × List Event :=
  if value = 0 then
    ({ vib with vib_timer := none, state := 0, work_pending := true },
     [Event.mutex_lock, Event.hrtimer_cancel, Event.state_store 0,
      Event.mutex_unlock, Event.schedule_work])
  else
    let value := if value > vib.timeout then vib.timeout else value
    let secs := Int.tdiv value 1000
    let nsecs := wrapInt32 (Int.tmod value 1000 * 1000000)
    ({ vib with vib_timer := some (secs, nsecs), state := 1, work_pending := true },
     [Event.mutex_lock, Event.hrtimer_cancel, Event.state_store 1,
      Event.hrtimer_start secs nsecs, Event.mutex_unlock, Event.schedule_work])

/-- The hrtimer callback `isa1000_timer_func`. -/
def isa1000_timer_func (vib : isa1000_vib) :
    isa1000_vib × hrtimer_restart × List Event :=
  ({ vib with state := 0, work_pending := true },
   hrtimer_restart.HRTIMER_NORESTART,
   [Event.state_store 0, Event.schedule_work])

/-- Expiry of the armed hrtimer, as the hrtimer core runs it: the timer is
taken off its queue, the callback runs, and the timer is queued again only if
the callback asks for a restart. -/
def hrtimer_expire (vib : isa1000_vib) : isa1000_vib × List Event :=
  match vib.vib_timer with
  | none => (vib, [])
  | some t =>
    let r := isa1000_timer_func { vib with vib_timer := none }
    match r.2.1 with
    | hrtimer_restart.HRTIMER_NORESTART => (r.1, r.2.2)
    | hrtimer_restart.HRTIMER_RESTART => ({ r.1 with vib_timer := some t }, r.2.2)

/-- Modelled from the spec: the kernel helpers `ktime_set`,
`hrtimer_get_remaining` and `ktime_to_us` are not part of the driver source.
The deadline is single-shot and relative, so the time remaining
`elapsed_ns` nanoseconds of the monotonic clock after `hrtimer_start` is the
armed interval `secs * NSEC_PER_SEC + nsecs` minus `elapsed_ns`. -/
def hrtimer_get_remaining (t : Int × Int) (elapsed_ns : Int) : Int :=
  t.1 * NSEC_PER_SEC + t.2 - elapsed_ns

/-- Modelled from the spec: `ktime_to_us` of the kernel, nanoseconds to whole
microseconds (rounded down). -/
def ktime_to_us (ns : Int) : Int := ns / 1000

/-- The function `isa1000_get_time`, read `elapsed_ns` nanoseconds after the
timer was started; the result is cast to `int`. -/
def isa1000_get_time (vib : isa1000_vib) (elapsed_ns : Int) : Int :=
  match vib.vib_timer with
  | some t => wrapInt32 (ktime_to_us (hrtimer_get_remaining t elapsed_ns))
  | none => 0

/-! ## Tunables -/

/-- The function `isa1000_amp_store`; `tmp` is the `int` that `sscanf` filled
with the `%d` conversion.  The returned byte count `size` is not modelled. -/
def isa1000_amp_store (vib : isa1000_vib) (tmp : Int) : isa1000_vib :=
  let tmp := if tmp > 100 then 100 else if tmp < 80 then 80 else tmp
  { vib with pwm_duty_percent := tmp }

/-- The function `isa1000_pwm_store`; `v` is the unsigned number
(`0 <= v < 2^32`) that the `%u` conversion of `sscanf` wrote into the
`int tmp`.  The comparisons are made on the `int`, the result is stored in the
`unsigned int` member.  The returned byte count `size` is not modelled. -/
def isa1000_pwm_store (vib : isa1000_vib) (v : Int) : isa1000_vib :=
  let tmp := wrapInt32 v
  let tmp := if tmp > 50000 then 50000 else if tmp < 10000 then 10000 else tmp
  { vib with pwm_frequency := wrapUInt32 tmp }

/-- One write to a tunable attribute of the control surface. -/
inductive StoreOp where
  | amp (tmp : Int)
  | pwm (v : Int)
  deriving DecidableEq, Repr

/-- The effect of one attribute write on the driver record. -/
def applyStore (vib : isa1000_vib) : StoreOp → isa1000_vib
  | StoreOp.amp tmp => isa1000_amp_store vib tmp
  | StoreOp.pwm v => isa1000_pwm_store vib v

/-! ## Probe and remove -/

/-- Outcomes of the external calls made by `isa1000_probe`.

* `of_gpio_isa1000_en`, `of_gpio_haptic_en`: results of the two
  `of_get_named_gpio_flags` calls;
* `of_timeout_ms`, `of_pwm_channel`: `some v` when `of_property_read_u32`
  succeeds and writes `v`, `none` when it fails and writes nothing;
* `gpio_is_valid`: the kernel predicate of that name;
* `gpio_request_isa1000_en`, `gpio_request_haptic_en`: return codes of the two
  `gpio_request` calls;
* `pwm_request`: the pointer returned, as a signed machine word;
* `IS_ERR`, `PTR_ERR`: the kernel macros of those names;
* `timed_output_dev_register`, `device_create_file i`: return codes. -/
structure ProbeEnv where
  of_gpio_isa1000_en : Int
  of_gpio_haptic_en : Int
  of_timeout_ms : Option Nat
  of_pwm_channel : Option Nat
  gpio_is_valid : Int → Bool
  gpio_request_isa1000_en : Int
  gpio_request_haptic_en : Int
  pwm_request : Int
  IS_ERR : Int → Bool
  PTR_ERR : Int → Int
  timed_output_dev_register : Int
  device_create_file : Nat → Int

/-- The function `isa1000_parse_dt`: return code and updated record.  The
`u32` properties are written into `int` members. -/
def isa1000_parse_dt (env : ProbeEnv) (vib : isa1000_vib) : Int × isa1000_vib :=
  let ret := env.of_gpio_isa1000_en
  if ret < 0 then (ret, vib)
  else
    let vib := { vib with gpio_isa1000_en := ret }
    let ret := env.of_gpio_haptic_en
    if ret < 0 then (ret, vib)
    else
      let vib := { vib with gpio_haptic_en := ret }
      let vib := match env.of_timeout_ms with
        | some v => { vib with timeout := wrapInt32 v }
        | none => vib
      let vib := match env.of_pwm_channel with
        | some v => { vib with pwm_channel := wrapInt32 v }
        | none => vib
      (0, vib)

/-- The tail of `isa1000_probe` from `timed_output_dev_register` on, the loop
over the two entries of `isa1000_device_attrs` unrolled; `pre` holds the calls
made before. -/
def isa1000_probe_register (env : ProbeEnv) (vib : isa1000_vib) (pre : List Event) :
    Int × isa1000_vib × List Event :=
  let ret := env.timed_output_dev_register
  if ret < 0 then (ret, vib, pre ++ [Event.timed_output_dev_register])
  else
    let ret := env.device_create_file 0
    if ret < 0 then
      (ret, vib, pre ++ [Event.timed_output_dev_register, Event.device_create_file 0,
        Event.device_remove_file 0, Event.timed_output_dev_unregister])
    else
      let ret := env.device_create_file 1
      if ret < 0 then
        (ret, vib, pre ++ [Event.timed_output_dev_register, Event.device_create_file 0,
          Event.device_create_file 1, Event.device_remove_file 1,
          Event.device_remove_file 0, Event.timed_output_dev_unregister])
      else
        (0, vib, pre ++ [Event.timed_output_dev_register, Event.device_create_file 0,
          Event.device_create_file 1])

/-- The function `isa1000_probe`, run on the driver record `vib0`: return
code, updated record, calls made.  The return code of `isa1000_parse_dt` is
only logged.  In both `else` branches the value returned is `ret`, the result
of `gpio_is_valid`. -/
def isa1000_probe (env : ProbeEnv) (vib0 : isa1000_vib) :
    Int × isa1000_vib × List Event :=
  let vib := (isa1000_parse_dt env vib0).2
  let ret : Int := if env.gpio_is_valid vib.gpio_isa1000_en then 1 else 0
  if ret ≠ 0 then
    let ev1 := [Event.gpio_request vib.gpio_isa1000_en]
    let ret := env.gpio_request_isa1000_en
    if ret ≠ 0 then (ret, vib, ev1)
    else
      let ret : Int := if env.gpio_is_valid vib.gpio_haptic_en then 1 else 0
      if ret ≠ 0 then
        let ev2 := ev1 ++ [Event.gpio_request vib.gpio_haptic_en]
        let ret := env.gpio_request_haptic_en
        if ret ≠ 0 then (ret, vib, ev2)
        else
          let ev3 := ev2 ++ [Event.gpio_direction_output vib.gpio_isa1000_en 0,
            Event.gpio_direction_output vib.gpio_haptic_en 1,
            Event.pwm_request vib.pwm_channel]
          let vib := { vib with pwm := env.pwm_request }
          if env.IS_ERR vib.pwm then (wrapInt32 (env.PTR_ERR vib.pwm), vib, ev3)
          else
            isa1000_probe_register env
              { vib with work_pending := false, vib_timer := none }
              (ev3 ++ [Event.mutex_init, Event.INIT_WORK, Event.hrtimer_init])
      else (ret, vib, ev1)
  else (ret, vib, [])

/-- The function `isa1000_remove`: return code, updated record, calls made. -/
def isa1000_remove (vib : isa1000_vib) : Int × isa1000_vib × List Event :=
  (0, { vib with vib_timer := none, work_pending := false },
   [Event.timed_output_dev_unregister, Event.hrtimer_cancel, Event.cancel_work_sync,
    Event.mutex_destroy, Event.gpio_free vib.gpio_haptic_en,
    Event.gpio_free vib.gpio_isa1000_en])

/-! ## Executions -/

/-- One step of an execution of the driver: an activation request, the expiry
of the armed timer, or a run of the queued work item. -/
inductive Step where
  | enable (value : Int)
  | timer_expiry
  | worker_run
  deriving DecidableEq, Repr

/-- Takes one step; `none` when the step cannot happen (no timer armed, no
work queued) or when the work function divides by zero.  The workqueue clears
the pending bit before it calls the work function. -/
def step (hw : PwmPort) (vib : isa1000_vib) : Step → Option (isa1000_vib × List Event)
  | Step.enable value => some (isa1000_enable vib value)
  | Step.timer_expiry =>
    if vib.vib_timer.isSome then some (hrtimer_expire vib) else none
  | Step.worker_run =>
    if vib.work_pending then
      (isa1000_update hw { vib with work_pending := false }).map
        fun ev => ({ vib with work_pending := false }, ev)
    else none

/-- Takes the steps of a list in order and concatenates the events. -/
def run (hw : PwmPort) : isa1000_vib → List Step → Option (isa1000_vib × List Event)
  | vib, [] => some (vib, [])
  | vib, s :: ss =>
    match step hw vib s with
    | none => none
    | some r1 =>
      match run hw r1.1 ss with
      | none => none
      | some r2 => some (r2.1, r1.2 ++ r2.2)

/-- The calls that drive the hardware port: the pulse channel and the enable
line. -/
def isHardwareCall : Event → Bool
  | Event.pwm_config _ _ => true
  | Event.pwm_enable => true
  | Event.pwm_disable => true
  | Event.gpio_set_value_cansleep _ _ => true
  | _ => false

/-- The states reachable from an idle record (`state = 0`, timer inactive) by
activation requests with a non-negative duration and by expiries of the armed
timer. -/
inductive Reachable : isa1000_vib → Prop where
  | init (vib : isa1000_vib) (hs : vib.state = 0) (ht : vib.vib_timer = none) :
      Reachable vib
  | enable (vib : isa1000_vib) (value : Int) (h : Reachable vib) (hv : 0 ≤ value) :
      Reachable (isa1000_enable vib value).1
  | expiry (vib : isa1000_vib) (h : Reachable vib) (ha : vib.vib_timer.isSome = true) :
      Reachable (hrtimer_expire vib).1

/-- Scans an event list, `held` telling whether the mutex is held on entry:
true when every access to `vib->state` in the list happens with the mutex
held. -/
def stateAccessLocked : Bool → List Event → Bool
  | _, [] => true
  | _, Event.mutex_lock :: es => stateAccessLocked true es
  | _, Event.mutex_unlock :: es => stateAccessLocked false es
  | held, Event.state_store _ :: es => held && stateAccessLocked held es
  | held, Event.state_load :: es => held && stateAccessLocked held es
  | held, _ :: es => stateAccessLocked held es

/-- Scans an event list, `held` telling whether the mutex is held on entry:
true when every hardware call in the list happens with the mutex released. -/
def hardwareCallsUnlocked : Bool → List Event → Bool
  | _, [] => true
  | _, Event.mutex_lock :: es => hardwareCallsUnlocked true es
  | _, Event.mutex_unlock :: es => hardwareCallsUnlocked false es
  | held, e :: es =>
    (if isHardwareCall e then !held else true) && hardwareCallsUnlocked held es

/-- Scans an event list, `held` telling whether the mutex is held on entry:
true when every `hrtimer_cancel` and `hrtimer_start` in the list happens with
the mutex held. -/
def timerCallsLocked : Bool → List Event → Bool
  | _, [] => true
  | _, Event.mutex_lock :: es => timerCallsLocked true es
  | _, Event.mutex_unlock :: es => timerCallsLocked false es
  | held, Event.hrtimer_cancel :: es => held && timerCallsLocked held es
  | held, Event.hrtimer_start _ _ :: es => held && timerCallsLocked held es
  | held, _ :: es => timerCallsLocked held es

/-- Scans an event list, `held` telling whether the mutex is held on entry:
whether the mutex is held after the last event. -/
def lockHeldAfter : Bool → List Event → Bool
  | held, [] => held
  | _, Event.mutex_lock :: es => lockHeldAfter true es
  | _, Event.mutex_unlock :: es => lockHeldAfter false es
  | held, _ :: es => lockHeldAfter held es

/-- A probe environment in which the device tree names GPIO 300 for the
`gpio-isa1000-en` line while `gpio_is_valid` accepts 0 .. 255 only; every
request succeeds. -/
def env_invalid_isa1000_en : ProbeEnv :=
  { of_gpio_isa1000_en := 300, of_gpio_haptic_en := 34,
    of_timeout_ms := some 15000, of_pwm_channel := some 0,
    gpio_is_valid := fun n => decide (0 ≤ n ∧ n < 256),
    gpio_request_isa1000_en := 0, gpio_request_haptic_en := 0,
    pwm_request := 4096,
    IS_ERR := fun p => decide (-4095 ≤ p ∧ p < 0),
    PTR_ERR := fun p => p,
    timed_output_dev_register := 0,
    device_create_file := fun _ => 0 }

/-- The same environment with the invalid number on the `gpio-haptic-en`
line instead. -/
def env_invalid_haptic_en : ProbeEnv :=
  { env_invalid_isa1000_en with of_gpio_isa1000_en := 33, of_gpio_haptic_en := 300 }

/-- A record in the active state: GPIOs 33 and 34, a timeout of 15000 ms, and
an activation request of 100 ms just made. -/
def vib_active : isa1000_vib :=
  (isa1000_enable { vib_dev with gpio_isa1000_en := 33, gpio_haptic_en := 34,
                                 timeout := 15000 } 100).1

/-! ## Auxiliary facts -/

theorem wrapInt32_of_range (n : Int) (h0 : -2147483648 ≤ n) (h1 : n < 2147483648) :
    wrapInt32 n = n := by
  unfold wrapInt32
  split <;> omega

theorem wrapUInt32_of_range (n : Int) (h0 : 0 ≤ n) (h1 : n < 4294967296) :
    (wrapUInt32 n : Int) = n := by
  unfold wrapUInt32
  omega

theorem ktime_pair_total (v : Int) (h : 0 ≤ v) :
    0 ≤ wrapInt32 (Int.tmod v 1000 * 1000000) ∧
    wrapInt32 (Int.tmod v 1000 * 1000000) < 1000000000 ∧
    Int.tdiv v 1000 * 1000000000 + wrapInt32 (Int.tmod v 1000 * 1000000) = v * 1000000 := by
  have h1 := Int.tmod_add_tdiv v 1000
  have h2 := Int.tmod_nonneg 1000 h
  have h3 : Int.tmod v 1000 < 1000 := Int.tmod_lt_of_pos v (by norm_num)
  rw [wrapInt32_of_range _ (by omega) (by omega)]
  omega

theorem pwm_period_ns_of_range (vib : isa1000_vib)
    (hf0 : 10000 ≤ vib.pwm_frequency) (hf1 : vib.pwm_frequency ≤ 50000) :
    pwm_period_ns vib = 1000000000 / vib.pwm_frequency ∧
    20000 ≤ pwm_period_ns vib ∧ pwm_period_ns vib ≤ 100000 := by
  have hpos : 0 < vib.pwm_frequency := by omega
  have hlo : 20000 ≤ 1000000000 / vib.pwm_frequency :=
    (Nat.le_div_iff_mul_le hpos).2 (by omega)
  have hhi : 1000000000 / vib.pwm_frequency < 100001 :=
    (Nat.div_lt_iff_lt_mul hpos).2 (by omega)
  have hp : pwm_period_ns vib = 1000000000 / vib.pwm_frequency := by
    unfold pwm_period_ns wrapUInt32 NSEC_PER_SEC
    omega
  rw [hp]
  omega

theorem pwm_duty_ns_of_range (vib : isa1000_vib)
    (hf0 : 10000 ≤ vib.pwm_frequency) (hf1 : vib.pwm_frequency ≤ 50000)
    (hd0 : 80 ≤ vib.pwm_duty_percent) (hd1 : vib.pwm_duty_percent ≤ 100) :
    (pwm_period_ns vib : Int) * vib.pwm_duty_percent < 4294967296 ∧
    (pwm_duty_ns vib : Int) = (pwm_period_ns vib : Int) * vib.pwm_duty_percent / 100 ∧
    0 < pwm_duty_ns vib ∧ pwm_duty_ns vib ≤ pwm_period_ns vib ∧
    (pwm_period_ns vib : Int) * 80 - 99 ≤ (pwm_duty_ns vib : Int) * 100 := by
  obtain ⟨_, hlo, hhi⟩ := pwm_period_ns_of_range vib hf0 hf1
  have hlo' : (20000 : Int) ≤ (pwm_period_ns vib : Int) := by exact_mod_cast hlo
  have hhi' : (pwm_period_ns vib : Int) ≤ 100000 := by exact_mod_cast hhi
  have hprod0 : (pwm_period_ns vib : Int) * 80 ≤ (pwm_period_ns vib : Int) * vib.pwm_duty_percent :=
    mul_le_mul_of_nonneg_left hd0 (by omega)
  have hprod1 : (pwm_period_ns vib : Int) * vib.pwm_duty_percent ≤ (pwm_period_ns vib : Int) * 100 :=
    mul_le_mul_of_nonneg_left hd1 (by omega)
  have hw := wrapUInt32_of_range ((pwm_period_ns vib : Int) * vib.pwm_duty_percent)
    (by omega) (by omega)
  have hduty : (pwm_duty_ns vib : Int) =
      (pwm_period_ns vib : Int) * vib.pwm_duty_percent / 100 := by
    unfold pwm_duty_ns
    rw [Int.natCast_div, hw]
    rfl
  refine ⟨by omega, hduty, ?_, ?_, ?_⟩
  · have : (0 : Int) < (pwm_duty_ns vib : Int) := by rw [hduty]; omega
    exact_mod_cast this
  · have : (pwm_duty_ns vib : Int) ≤ (pwm_period_ns vib : Int) := by rw [hduty]; omega
    exact_mod_cast this
  · rw [hduty]; omega

theorem pwm_config_args_of_range (vib : isa1000_vib)
    (hf0 : 10000 ≤ vib.pwm_frequency) (hf1 : vib.pwm_frequency ≤ 50000)
    (hd0 : 80 ≤ vib.pwm_duty_percent) (hd1 : vib.pwm_duty_percent ≤ 100) :
    (20000 : Int) ≤ wrapInt32 (pwm_period_ns vib) ∧
    wrapInt32 (pwm_period_ns vib) ≤ 100000 ∧ 0 < wrapInt32 (pwm_duty_ns vib) ∧
    wrapInt32 (pwm_duty_ns vib) ≤ wrapInt32 (pwm_period_ns vib) ∧
    wrapInt32 (pwm_period_ns vib) * 80 - 99 ≤ wrapInt32 (pwm_duty_ns vib) * 100 := by
  obtain ⟨_, hplo, hphi⟩ := pwm_period_ns_of_range vib hf0 hf1
  obtain ⟨_, _, hdpos, hdle, hd80⟩ := pwm_duty_ns_of_range vib hf0 hf1 hd0 hd1
  clear hf0 hf1 hd0 hd1
  generalize pwm_period_ns vib = p at *
  generalize pwm_duty_ns vib = d at *
  have hpw : wrapInt32 (p : Int) = (p : Int) := wrapInt32_of_range _ (by omega) (by omega)
  have hdw : wrapInt32 (d : Int) = (d : Int) := wrapInt32_of_range _ (by omega) (by omega)
  rw [hpw, hdw]
  clear hpw hdw
  omega

/-! ## Activation requests -/

/-- C1: for every prior record, every `timeout >= 0` and every `value >= 0`,
`isa1000_enable` with `value = 0` leaves `state = 0` with the timer inactive
and starts no timer; with `value != 0` it leaves `state = 1` and the timer
armed by `hrtimer_start` with a pair `(secs, nsecs)` that totals
`min value timeout * 1,000,000` nanoseconds.  A request of 100 followed by a
request of 0 ends with `state = 0` and the timer inactive. -/
theorem isa1000_enable_arms_clamped_interval (vib : isa1000_vib) (value : Int)
    (ht : 0 ≤ vib.timeout) (hv : 0 ≤ value) :
    (value = 0 →
      (isa1000_enable vib value).1.state = 0 ∧
      (isa1000_enable vib value).1.vib_timer = none ∧
      ∀ s n, Event.hrtimer_start s n ∉ (isa1000_enable vib value).2) ∧
    (value ≠ 0 →
      (isa1000_enable vib value).1.state = 1 ∧
      ∃ secs nsecs,
        (isa1000_enable vib value).1.vib_timer = some (secs, nsecs) ∧
        Event.hrtimer_start secs nsecs ∈ (isa1000_enable vib value).2 ∧
        0 ≤ nsecs ∧ nsecs < 1000000000 ∧
        secs * 1000000000 + nsecs = min value vib.timeout * 1000000) ∧
    ((isa1000_enable (isa1000_enable vib 100).1 0).1.state = 0 ∧
      (isa1000_enable (isa1000_enable vib 100).1 0).1.vib_timer = none) := by
  refine ⟨?_, ?_, ?_⟩
  · intro h0
    subst h0
    simp [isa1000_enable]
  · intro hne
    have hclamp : (if value > vib.timeout then vib.timeout else value) = min value vib.timeout := by
      split
      · omega
      · omega
    have hmin : 0 ≤ min value vib.timeout := le_min hv ht
    obtain ⟨k0, k1, k2⟩ := ktime_pair_total (min value vib.timeout) hmin
    simp only [isa1000_enable, if_neg hne, hclamp]
    refine ⟨by simp, _, _, rfl, ?_, k0, k1, k2⟩
    simp
  · simp [isa1000_enable]

theorem isa1000_enable_arms_clamped_interval_witness :
    (0 : Int) ≤ ({ vib_dev with timeout := 15000 } : isa1000_vib).timeout ∧ (0 : Int) ≤ 20500 ∧
    (isa1000_enable { vib_dev with timeout := 15000 } 20500).1.vib_timer = some (15, 0) ∧
    (isa1000_enable { vib_dev with timeout := 15000 } 20500).1.state = 1 :=
  ⟨by decide, by decide, by decide,
    ((isa1000_enable_arms_clamped_interval { vib_dev with timeout := 15000 } 20500
      (by decide) (by decide)).2.1 (by decide)).1⟩

/-- C2: invariant I1.  In every state reachable from an idle record by
activation requests with a non-negative duration and expiries of the armed
timer, the timer is armed if and only if `state` is non-zero (and then `state`
is 1). -/
theorem reachable_timer_armed_iff_on (vib : isa1000_vib) (h : Reachable vib) :
    (vib.vib_timer.isSome = true ↔ vib.state ≠ 0) ∧ (vib.state = 0 ∨ vib.state = 1) := by
  induction h with
  | init vib hs ht => simp [hs, ht]
  | enable vib value _ _ _ =>
    by_cases h0 : value = 0
    · simp [isa1000_enable, h0]
    · simp [isa1000_enable, h0]
  | expiry vib _ ha _ =>
    cases hT : vib.vib_timer with
    | none => simp [hT] at ha
    | some t => simp [hrtimer_expire, hT, isa1000_timer_func]

theorem reachable_timer_armed_iff_on_witness :
    Reachable (hrtimer_expire (isa1000_enable vib_dev 100).1).1 ∧
    (((hrtimer_expire (isa1000_enable vib_dev 100).1).1.vib_timer.isSome = true ↔
        (hrtimer_expire (isa1000_enable vib_dev 100).1).1.state ≠ 0) ∧
      ((hrtimer_expire (isa1000_enable vib_dev 100).1).1.state = 0 ∨
        (hrtimer_expire (isa1000_enable vib_dev 100).1).1.state = 1)) :=
  have hr : Reachable (hrtimer_expire (isa1000_enable vib_dev 100).1).1 :=
    Reachable.expiry _ (Reachable.enable vib_dev 100 (Reachable.init vib_dev rfl rfl)
      (by decide)) (by decide)
  ⟨hr, reachable_timer_armed_iff_on _ hr⟩

/-! ## Hardware update -/

theorem isa1000_set_state_on (hw : PwmPort) (vib : isa1000_vib) (on_ : Int) (hon : on_ ≠ 0)
    (hcfg : 0 ≤ hw.config_rc) (hen : 0 ≤ hw.enable_rc) (hf : vib.pwm_frequency ≠ 0) :
    isa1000_set_state hw vib on_ =
      some (0, [Event.pwm_config (wrapInt32 (pwm_duty_ns vib)) (wrapInt32 (pwm_period_ns vib)),
        Event.pwm_enable, Event.gpio_set_value_cansleep vib.gpio_isa1000_en 1]) := by
  simp [isa1000_set_state, hon, hf, not_lt.2 hcfg, not_lt.2 hen]

theorem isa1000_enable_nonzero (vib : isa1000_vib) (value : Int) (h : value ≠ 0) :
    ∃ secs nsecs, isa1000_enable vib value =
      ({ vib with vib_timer := some (secs, nsecs), state := 1, work_pending := true },
       [Event.mutex_lock, Event.hrtimer_cancel, Event.state_store 1,
        Event.hrtimer_start secs nsecs, Event.mutex_unlock, Event.schedule_work]) :=
  ⟨_, _, by simp only [isa1000_enable, if_neg h]; rfl⟩

theorem pwm_period_ns_default (vib : isa1000_vib) (hf : vib.pwm_frequency = 25000) :
    wrapInt32 (pwm_period_ns vib) = 40000 := by
  unfold pwm_period_ns
  rw [hf]
  decide

theorem pwm_duty_ns_default (vib : isa1000_vib) (hf : vib.pwm_frequency = 25000)
    (hd : vib.pwm_duty_percent = 100) : wrapInt32 (pwm_duty_ns vib) = 40000 := by
  unfold pwm_duty_ns pwm_period_ns
  rw [hf, hd]
  decide

/-- C3: with both PWM calls succeeding and the tunables in their documented
ranges, `isa1000_update` reads `state` and then makes exactly these calls:
for `state != 0`, `pwm_config` with period `1,000,000,000 / pwm_frequency`
and high time `period * pwm_duty_percent / 100`, `pwm_enable`, enable line
set to 1; for `state = 0`, enable line set to 0, `pwm_disable`.  With 25000 Hz
and 100 % the execution request(50), worker, expiry, worker makes exactly the
hardware calls `pwm_config 40000 40000`, `pwm_enable`, line 1, line 0,
`pwm_disable`. -/
theorem isa1000_update_hardware_calls (hw : PwmPort) (vib : isa1000_vib)
    (hcfg : 0 ≤ hw.config_rc) (hen : 0 ≤ hw.enable_rc)
    (hf0 : 10000 ≤ vib.pwm_frequency) (hf1 : vib.pwm_frequency ≤ 50000)
    (hd0 : 80 ≤ vib.pwm_duty_percent) (hd1 : vib.pwm_duty_percent ≤ 100) :
    (vib.state ≠ 0 →
      isa1000_update hw vib = some [Event.state_load,
        Event.pwm_config
          (((1000000000 / vib.pwm_frequency : Nat) : Int) * vib.pwm_duty_percent / 100)
          ((1000000000 / vib.pwm_frequency : Nat) : Int),
        Event.pwm_enable,
        Event.gpio_set_value_cansleep vib.gpio_isa1000_en 1]) ∧
    (vib.state = 0 →
      isa1000_update hw vib = some [Event.state_load,
        Event.gpio_set_value_cansleep vib.gpio_isa1000_en 0, Event.pwm_disable]) ∧
    (vib.pwm_frequency = 25000 → vib.pwm_duty_percent = 100 →
      (run hw vib [Step.enable 50, Step.worker_run, Step.timer_expiry,
          Step.worker_run]).map (fun r => r.2.filter isHardwareCall) =
        some [Event.pwm_config 40000 40000, Event.pwm_enable,
          Event.gpio_set_value_cansleep vib.gpio_isa1000_en 1,
          Event.gpio_set_value_cansleep vib.gpio_isa1000_en 0,
          Event.pwm_disable]) := by
  obtain ⟨hp, hplo, hphi⟩ := pwm_period_ns_of_range vib hf0 hf1
  obtain ⟨_, hduty, hdpos, hdle, _⟩ := pwm_duty_ns_of_range vib hf0 hf1 hd0 hd1
  have hpw : wrapInt32 (pwm_period_ns vib) = ((1000000000 / vib.pwm_frequency : Nat) : Int) := by
    rw [wrapInt32_of_range _ (by omega) (by omega), hp]
  have hdw : wrapInt32 (pwm_duty_ns vib) =
      ((1000000000 / vib.pwm_frequency : Nat) : Int) * vib.pwm_duty_percent / 100 := by
    rw [wrapInt32_of_range _ (by omega) (by omega), hduty, hp]
  refine ⟨?_, ?_, ?_⟩
  · intro hs
    simp only [isa1000_update, isa1000_set_state_on hw vib vib.state hs hcfg hen (by omega),
      Option.map_some', hpw, hdw]
  · intro hs
    simp [isa1000_update, isa1000_set_state, hs]
  · intro h25 h100
    obtain ⟨secs, nsecs, he⟩ := isa1000_enable_nonzero vib 50 (by decide)
    obtain ⟨en, hap, tmo, ch, f, d, pw, wp, tm, st⟩ := vib
    simp only at h25 h100
    subst h25 h100
    simp [run, step, he, hrtimer_expire, isa1000_timer_func, isa1000_update,
      isa1000_set_state, isHardwareCall, not_lt.2 hcfg, not_lt.2 hen,
      pwm_period_ns_default, pwm_duty_ns_default]

theorem isa1000_update_hardware_calls_witness :
    (0 : Int) ≤ (PwmPort.mk 0 0).config_rc ∧ (0 : Int) ≤ (PwmPort.mk 0 0).enable_rc ∧
    10000 ≤ vib_dev.pwm_frequency ∧ vib_dev.pwm_frequency ≤ 50000 ∧
    80 ≤ vib_dev.pwm_duty_percent ∧ vib_dev.pwm_duty_percent ≤ 100 ∧
    (run (PwmPort.mk 0 0) vib_dev [Step.enable 50, Step.worker_run, Step.timer_expiry,
        Step.worker_run]).map (fun r => r.2.filter isHardwareCall) =
      some [Event.pwm_config 40000 40000, Event.pwm_enable,
        Event.gpio_set_value_cansleep vib_dev.gpio_isa1000_en 1,
        Event.gpio_set_value_cansleep vib_dev.gpio_isa1000_en 0,
        Event.pwm_disable] :=
  ⟨by decide, by decide, by decide, by decide, by decide, by decide,
    (isa1000_update_hardware_calls (PwmPort.mk 0 0) vib_dev (by decide) (by decide)
      (by decide) (by decide) (by decide) (by decide)).2.2 rfl rfl⟩

/-! ## Remaining time -/

/-- C6 (as stated, refuted): right after a request of 500 ms with a maximum
timeout of 15000 ms, `isa1000_get_time` returns 500000, which is not in
`(0, 500]`. -/
theorem isa1000_get_time_exceeds_500 :
    ¬ (0 < isa1000_get_time (isa1000_enable { vib_dev with timeout := 15000 } 500).1 0 ∧
      isa1000_get_time (isa1000_enable { vib_dev with timeout := 15000 } 500).1 0 ≤ 500) := by
  decide

theorem isa1000_get_time_armed (vib : isa1000_vib) (t : Int × Int) (e : Int)
    (hT : vib.vib_timer = some t)
    (h0 : 0 ≤ t.1 * 1000000000 + t.2 - e)
    (h1 : t.1 * 1000000000 + t.2 - e < 2147483648000) :
    isa1000_get_time vib e = (t.1 * 1000000000 + t.2 - e) / 1000 := by
  have hns : ((NSEC_PER_SEC : Nat) : Int) = 1000000000 := rfl
  simp only [isa1000_get_time, hT, hrtimer_get_remaining, ktime_to_us, hns]
  generalize t.1 * 1000000000 + t.2 - e = r at h0 h1
  exact wrapInt32_of_range _ (by omega) (by omega)

theorem isa1000_enable_timer (vib : isa1000_vib) (value : Int) (hv : value ≠ 0) :
    (isa1000_enable vib value).1.vib_timer =
      some (Int.tdiv (if value > vib.timeout then vib.timeout else value) 1000,
        wrapInt32 (Int.tmod (if value > vib.timeout then vib.timeout else value) 1000
          * 1000000)) := by
  simp only [isa1000_enable, if_neg hv]

/-- C6 (amended): `isa1000_get_time` returns 0 when no timer is armed.  While
a timer is armed, the deadline has not passed and fewer than `2^31`
microseconds remain, it returns the remaining time in whole microseconds
(rounded down).  After `isa1000_enable` with `value > 0` and `timeout >= 0`
the remaining time at `elapsed_ns` is
`(min value timeout * 1,000,000 - elapsed_ns) / 1000`; after a request of 500
with `timeout >= 500` that is a value in `[0, 500000]`, positive while at
least one microsecond remains. -/
theorem isa1000_get_time_microseconds (vib : isa1000_vib) (value elapsed_ns : Int)
    (ht : 0 ≤ vib.timeout) (hv : 0 < value) (h0 : 0 ≤ elapsed_ns)
    (h1 : elapsed_ns ≤ min value vib.timeout * 1000000)
    (h2 : min value vib.timeout * 1000000 - elapsed_ns < 2147483648000) :
    isa1000_get_time (isa1000_enable vib value).1 elapsed_ns =
      (min value vib.timeout * 1000000 - elapsed_ns) / 1000 ∧
    (∀ (v : isa1000_vib) (e : Int), v.vib_timer = none → isa1000_get_time v e = 0) ∧
    (∀ (v : isa1000_vib) (t : Int × Int) (e : Int), v.vib_timer = some t →
      0 ≤ t.1 * 1000000000 + t.2 - e → t.1 * 1000000000 + t.2 - e < 2147483648000 →
      isa1000_get_time v e = (t.1 * 1000000000 + t.2 - e) / 1000) ∧
    (value = 500 → 500 ≤ vib.timeout →
      isa1000_get_time (isa1000_enable vib value).1 elapsed_ns =
        (500000000 - elapsed_ns) / 1000 ∧
      0 ≤ isa1000_get_time (isa1000_enable vib value).1 elapsed_ns ∧
      isa1000_get_time (isa1000_enable vib value).1 elapsed_ns ≤ 500000 ∧
      (elapsed_ns ≤ 499999000 →
        0 < isa1000_get_time (isa1000_enable vib value).1 elapsed_ns)) := by
  have hclamp : (if value > vib.timeout then vib.timeout else value) = min value vib.timeout := by
    split
    · omega
    · omega
  have hmin : 0 ≤ min value vib.timeout := le_min (le_of_lt hv) ht
  obtain ⟨_, _, k2⟩ := ktime_pair_total (min value vib.timeout) hmin
  have htimer := isa1000_enable_timer vib value (ne_of_gt hv)
  rw [hclamp] at htimer
  have hget : isa1000_get_time (isa1000_enable vib value).1 elapsed_ns =
      (min value vib.timeout * 1000000 - elapsed_ns) / 1000 := by
    rw [isa1000_get_time_armed _ _ elapsed_ns htimer (by simp only; omega) (by simp only; omega)]
    simp only
    rw [k2]
  refine ⟨hget, ?_, ?_, ?_⟩
  · intro v e hv0
    simp [isa1000_get_time, hv0]
  · intro v t e hT r0 r1
    exact isa1000_get_time_armed v t e hT r0 r1
  · intro h500 hto
    have hm : min value vib.timeout = 500 := by omega
    rw [hget, hm]
    rw [hm] at h1
    clear hget htimer k2 hclamp h2
    refine ⟨rfl, by omega, by omega, fun _ => by omega⟩

theorem isa1000_get_time_microseconds_witness :
    (0 : Int) ≤ ({ vib_dev with timeout := 15000 } : isa1000_vib).timeout ∧
    (0 : Int) < 20500 ∧ (0 : Int) ≤ 200000000 ∧
    isa1000_get_time (isa1000_enable { vib_dev with timeout := 15000 } 20500).1 200000000 =
      (min 20500 ({ vib_dev with timeout := 15000 } : isa1000_vib).timeout * 1000000
        - 200000000) / 1000 :=
  ⟨by decide, by decide, by decide,
    (isa1000_get_time_microseconds { vib_dev with timeout := 15000 } 20500 200000000
      (by decide) (by decide) (by decide) (by decide) (by decide)).1⟩

/-! ## Tunables -/

/-- C8: `isa1000_amp_store` stores the parsed value clamped to `[80, 100]` in
`pwm_duty_percent` and changes no other member; 150 is stored as 100 and 50
as 80. -/
theorem isa1000_amp_store_clamps (vib : isa1000_vib) (v : Int) :
    isa1000_amp_store vib v =
      { vib with pwm_duty_percent := if v < 80 then 80 else if v > 100 then 100 else v } ∧
    (isa1000_amp_store vib 150).pwm_duty_percent = 100 ∧
    (isa1000_amp_store vib 50).pwm_duty_percent = 80 := by
  refine ⟨?_, by simp [isa1000_amp_store], by simp [isa1000_amp_store]⟩
  have hval : (if v > 100 then 100 else if v < 80 then 80 else v) =
      (if v < 80 then 80 else if v > 100 then 100 else v) := by
    split <;> split <;> omega
  simp only [isa1000_amp_store, hval]

/-- C7 (code evaluated at the failing input): the value 3000000000, which is
above 50000, is stored by `isa1000_pwm_store` as 10000; values up to
`2^31 - 1` are clamped as documented (2147483647 is stored as 50000, 5000 as
10000). -/
theorem isa1000_pwm_store_large_value :
    (isa1000_pwm_store vib_dev 3000000000).pwm_frequency = 10000 ∧
    (isa1000_pwm_store vib_dev 4294967295).pwm_frequency = 10000 ∧
    (isa1000_pwm_store vib_dev 2147483647).pwm_frequency = 50000 ∧
    (isa1000_pwm_store vib_dev 5000).pwm_frequency = 10000 := by
  decide

theorem applyStore_in_range (vib : isa1000_vib) (op : StoreOp)
    (hf : 10000 ≤ vib.pwm_frequency ∧ vib.pwm_frequency ≤ 50000)
    (hd : 80 ≤ vib.pwm_duty_percent ∧ vib.pwm_duty_percent ≤ 100) :
    (10000 ≤ (applyStore vib op).pwm_frequency ∧ (applyStore vib op).pwm_frequency ≤ 50000) ∧
    (80 ≤ (applyStore vib op).pwm_duty_percent ∧ (applyStore vib op).pwm_duty_percent ≤ 100) := by
  cases op with
  | amp tmp =>
    simp only [applyStore, isa1000_amp_store]
    refine ⟨hf, ?_⟩
    split
    · omega
    · split <;> omega
  | pwm v =>
    simp only [applyStore, isa1000_pwm_store]
    refine ⟨?_, hd⟩
    generalize wrapInt32 v = t
    have hc : (10000 : Int) ≤ (if t > 50000 then 50000
        else if t < 10000 then 10000 else t) ∧
        (if t > 50000 then 50000
        else if t < 10000 then 10000 else t) ≤ 50000 := by
      split
      · omega
      · split <;> omega
    have hw := wrapUInt32_of_range _ (le_trans (by decide) hc.1)
      (lt_of_le_of_lt hc.2 (by decide))
    omega

theorem foldl_applyStore_in_range (ops : List StoreOp) (vib : isa1000_vib)
    (hf : 10000 ≤ vib.pwm_frequency ∧ vib.pwm_frequency ≤ 50000)
    (hd : 80 ≤ vib.pwm_duty_percent ∧ vib.pwm_duty_percent ≤ 100) :
    (10000 ≤ (ops.foldl applyStore vib).pwm_frequency ∧
      (ops.foldl applyStore vib).pwm_frequency ≤ 50000) ∧
    (80 ≤ (ops.foldl applyStore vib).pwm_duty_percent ∧
      (ops.foldl applyStore vib).pwm_duty_percent ≤ 100) := by
  induction ops generalizing vib with
  | nil => exact ⟨hf, hd⟩
  | cons op ops ih =>
    obtain ⟨hf1, hd1⟩ := applyStore_in_range vib op hf hd
    exact ih (applyStore vib op) hf1 hd1

/-- C10: from a record with the static defaults (25000 Hz, 100 %), after any
sequence of `isa1000_amp_store` and `isa1000_pwm_store` calls with arbitrary
parsed values, `pwm_frequency` is in `[10000, 50000]` and `pwm_duty_percent`
in `[80, 100]`; the product `period * duty` is below `2^32`; and the on-branch
of `isa1000_set_state` returns (no division by zero) with a first call
`pwm_config highTime period` where `20000 <= period <= 100000`,
`0 < highTime <= period` and `highTime * 100 >= period * 80 - 99`. -/
theorem tunables_stay_in_range (hw : PwmPort) (vib0 : isa1000_vib) (ops : List StoreOp)
    (h25 : vib0.pwm_frequency = 25000) (h100 : vib0.pwm_duty_percent = 100) :
    (10000 ≤ (ops.foldl applyStore vib0).pwm_frequency ∧
      (ops.foldl applyStore vib0).pwm_frequency ≤ 50000) ∧
    (80 ≤ (ops.foldl applyStore vib0).pwm_duty_percent ∧
      (ops.foldl applyStore vib0).pwm_duty_percent ≤ 100) ∧
    ((1000000000 / (ops.foldl applyStore vib0).pwm_frequency : Nat) : Int) *
      (ops.foldl applyStore vib0).pwm_duty_percent < 4294967296 ∧
    (∀ on_ : Int, on_ ≠ 0 → ∃ rc highTime period rest,
      isa1000_set_state hw (ops.foldl applyStore vib0) on_ =
        some (rc, Event.pwm_config highTime period :: rest) ∧
      20000 ≤ period ∧ period ≤ 100000 ∧ 0 < highTime ∧ highTime ≤ period ∧
      period * 80 - 99 ≤ highTime * 100) := by
  obtain ⟨hf, hd⟩ := foldl_applyStore_in_range ops vib0
    ⟨by simp [h25], by simp [h25]⟩ ⟨by simp [h100], by simp [h100]⟩
  generalize ops.foldl applyStore vib0 = vib at hf hd
  clear h25 h100
  obtain ⟨hp, _, _⟩ := pwm_period_ns_of_range vib hf.1 hf.2
  obtain ⟨hprod, _, _, _, _⟩ := pwm_duty_ns_of_range vib hf.1 hf.2 hd.1 hd.2
  have hbounds := pwm_config_args_of_range vib hf.1 hf.2 hd.1 hd.2
  refine ⟨hf, hd, ?_, ?_⟩
  · rw [← hp]; exact hprod
  · intro on_ hon
    have hne : vib.pwm_frequency ≠ 0 := fun h0 => by
      have h1 := hf.1
      rw [h0] at h1
      exact absurd h1 (by decide)
    clear hp hprod hf hd
    by_cases hc : hw.config_rc < 0
    · refine ⟨hw.config_rc, _, _, [], ?_, hbounds⟩
      simp [isa1000_set_state, hon, hne, hc]
    · by_cases he : hw.enable_rc < 0
      · refine ⟨hw.enable_rc, _, _, [Event.pwm_enable], ?_, hbounds⟩
        simp [isa1000_set_state, hon, hne, hc, he]
      · refine ⟨0, _, _, [Event.pwm_enable,
          Event.gpio_set_value_cansleep vib.gpio_isa1000_en 1], ?_, hbounds⟩
        simp [isa1000_set_state, hon, hne, hc, he]

theorem tunables_stay_in_range_witness :
    vib_dev.pwm_frequency = 25000 ∧ vib_dev.pwm_duty_percent = 100 ∧
    (10000 ≤ ([StoreOp.pwm 4294967295, StoreOp.amp (-7), StoreOp.pwm 0].foldl
        applyStore vib_dev).pwm_frequency ∧
      ([StoreOp.pwm 4294967295, StoreOp.amp (-7), StoreOp.pwm 0].foldl
        applyStore vib_dev).pwm_frequency ≤ 50000) :=
  ⟨rfl, rfl,
    (tunables_stay_in_range (PwmPort.mk 0 0) vib_dev
      [StoreOp.pwm 4294967295, StoreOp.amp (-7), StoreOp.pwm 0] rfl rfl).1⟩

/-! ## Locking -/

/-- C9 (as stated, refuted): the event list of `isa1000_timer_func` writes
`state` with the mutex not held and contains no `mutex_lock`; the event list
of `isa1000_update` reads `state` with the mutex not held. -/
theorem isa1000_timer_func_takes_no_lock :
    stateAccessLocked false (isa1000_timer_func vib_dev).2.2 = false ∧
    Event.mutex_lock ∉ (isa1000_timer_func vib_dev).2.2 ∧
    (isa1000_update (PwmPort.mk 0 0) vib_dev).map (stateAccessLocked false) = some false := by
  decide

/-- C9 (amended): `isa1000_enable` makes exactly the calls `mutex_lock`,
`hrtimer_cancel`, write of `state`, `hrtimer_start` (only for `value != 0`,
with the pair it arms), `mutex_unlock`, `schedule_work`, in this order: the
timer calls and the write of `state` happen with the mutex held, and the
mutex is released before the work is scheduled.  `isa1000_timer_func` makes
exactly the write `state = 0` and `schedule_work`, with no mutex call, so its
write happens with the mutex not held.  `isa1000_update` returns whenever
`pwm_frequency != 0` or `state = 0`; it reads `state` first with the mutex not
held, makes no mutex call, and makes its hardware calls with no mutex held. -/
theorem lock_discipline (hw : PwmPort) (vib : isa1000_vib) (value : Int) :
    (value = 0 → (isa1000_enable vib value).2 =
      [Event.mutex_lock, Event.hrtimer_cancel, Event.state_store 0,
       Event.mutex_unlock, Event.schedule_work]) ∧
    (value ≠ 0 → ∃ secs nsecs,
      (isa1000_enable vib value).1.vib_timer = some (secs, nsecs) ∧
      (isa1000_enable vib value).2 =
        [Event.mutex_lock, Event.hrtimer_cancel, Event.state_store 1,
         Event.hrtimer_start secs nsecs, Event.mutex_unlock, Event.schedule_work]) ∧
    stateAccessLocked false (isa1000_enable vib value).2 = true ∧
    timerCallsLocked false (isa1000_enable vib value).2 = true ∧
    lockHeldAfter false (isa1000_enable vib value).2 = false ∧
    (isa1000_timer_func vib).2.2 = [Event.state_store 0, Event.schedule_work] ∧
    stateAccessLocked false (isa1000_timer_func vib).2.2 = false ∧
    (vib.pwm_frequency ≠ 0 ∨ vib.state = 0 → (isa1000_update hw vib).isSome = true) ∧
    (∀ ev, isa1000_update hw vib = some ev →
      ev.head? = some Event.state_load ∧ Event.mutex_lock ∉ ev ∧
      Event.mutex_unlock ∉ ev ∧ stateAccessLocked false ev = false ∧
      hardwareCallsUnlocked false ev = true) := by
  refine ⟨?_, ?_, ?_, ?_, ?_, rfl, rfl, ?_, ?_⟩
  · intro h0
    simp [isa1000_enable, h0]
  · intro h0
    obtain ⟨secs, nsecs, he⟩ := isa1000_enable_nonzero vib value h0
    exact ⟨secs, nsecs, by rw [he], by rw [he]⟩
  · by_cases h0 : value = 0
    · simp [isa1000_enable, h0, stateAccessLocked]
    · simp [isa1000_enable, h0, stateAccessLocked]
  · by_cases h0 : value = 0
    · simp [isa1000_enable, h0, timerCallsLocked]
    · simp [isa1000_enable, h0, timerCallsLocked]
  · by_cases h0 : value = 0
    · simp [isa1000_enable, h0, lockHeldAfter]
    · simp [isa1000_enable, h0, lockHeldAfter]
  · intro h
    unfold isa1000_update isa1000_set_state
    by_cases hs : vib.state = 0
    · simp [hs]
    · have hf : vib.pwm_frequency ≠ 0 := by
        cases h with
        | inl hf => exact hf
        | inr h0 => exact absurd h0 hs
      simp only [ne_eq, hs, not_false_eq_true, if_true, hf, if_false]
      split
      · rfl
      · split <;> rfl
  · intro ev hev
    unfold isa1000_update isa1000_set_state at hev
    split at hev
    · split at hev
      · simp at hev
      · split at hev
        · simp at hev
          subst hev
          simp [hardwareCallsUnlocked, isHardwareCall, stateAccessLocked]
        · split at hev
          · simp at hev
            subst hev
            simp [hardwareCallsUnlocked, isHardwareCall, stateAccessLocked]
          · simp at hev
            subst hev
            simp [hardwareCallsUnlocked, isHardwareCall, stateAccessLocked]
    · simp at hev
      subst hev
      simp [hardwareCallsUnlocked, isHardwareCall, stateAccessLocked]

theorem lock_discipline_witness :
    (isa1000_enable vib_active 250).2 =
      [Event.mutex_lock, Event.hrtimer_cancel, Event.state_store 1,
       Event.hrtimer_start 0 250000000, Event.mutex_unlock, Event.schedule_work] ∧
    (isa1000_update (PwmPort.mk 0 0) vib_active).isSome = true :=
  ⟨by decide,
    (lock_discipline (PwmPort.mk 0 0) vib_active 250).2.2.2.2.2.2.2.1 (Or.inl (by decide))⟩

/-! ## Probe and remove -/

/-- C4 (code evaluated at the failing input): when `gpio_is_valid` rejects
the `gpio-isa1000-en` line, or the `gpio-haptic-en` line, `isa1000_probe`
returns 0, and it has requested neither the PWM channel nor, in the first
case, any GPIO. -/
theorem isa1000_probe_invalid_gpio_returns_zero :
    env_invalid_isa1000_en.gpio_is_valid
      (isa1000_parse_dt env_invalid_isa1000_en vib_dev).2.gpio_isa1000_en = false ∧
    (isa1000_probe env_invalid_isa1000_en vib_dev).1 = 0 ∧
    (isa1000_probe env_invalid_isa1000_en vib_dev).2.2 = [] ∧
    env_invalid_haptic_en.gpio_is_valid
      (isa1000_parse_dt env_invalid_haptic_en vib_dev).2.gpio_haptic_en = false ∧
    (isa1000_probe env_invalid_haptic_en vib_dev).1 = 0 ∧
    (isa1000_probe env_invalid_haptic_en vib_dev).2.2 = [Event.gpio_request 33] := by
  decide

/-- C5 (as stated, refuted): called in the active state, `isa1000_remove`
does not set the enable line (GPIO 33) to 0, does not call `pwm_disable` and
does not call `pwm_free`. -/
theorem isa1000_remove_leaves_outputs :
    vib_active.state = 1 ∧
    Event.gpio_set_value_cansleep 33 0 ∉ (isa1000_remove vib_active).2.2 ∧
    Event.pwm_disable ∉ (isa1000_remove vib_active).2.2 ∧
    Event.pwm_free ∉ (isa1000_remove vib_active).2.2 := by
  decide

/-- C5 (amended): from every state `isa1000_remove` returns 0 and leaves the
record as it was except that the timer is inactive and no work is pending.
The calls it makes are exactly `timed_output_dev_unregister`,
`hrtimer_cancel`, `cancel_work_sync`, `mutex_destroy`, `gpio_free` of the
haptic line and `gpio_free` of the enable line, in this order; none of them
drives the enable line or the pulse channel, sets a GPIO direction, or
releases the pulse channel. -/
theorem isa1000_remove_effects (vib : isa1000_vib) :
    (isa1000_remove vib).1 = 0 ∧
    (isa1000_remove vib).2.1 = { vib with vib_timer := none, work_pending := false } ∧
    (isa1000_remove vib).2.2 =
      [Event.timed_output_dev_unregister, Event.hrtimer_cancel, Event.cancel_work_sync,
       Event.mutex_destroy, Event.gpio_free vib.gpio_haptic_en,
       Event.gpio_free vib.gpio_isa1000_en] ∧
    (∀ e ∈ (isa1000_remove vib).2.2, isHardwareCall e = false) ∧
    (∀ g v, Event.gpio_direction_output g v ∉ (isa1000_remove vib).2.2) ∧
    Event.pwm_free ∉ (isa1000_remove vib).2.2 := by
  refine ⟨rfl, rfl, rfl, ?_, ?_, ?_⟩
  · intro e he
    simp only [isa1000_remove, List.mem_cons, List.mem_singleton, List.not_mem_nil,
      or_false] at he
    rcases he with h | h | h | h | h | h <;> subst h <;> rfl
  · intro g v
    simp [isa1000_remove]
  · simp [isa1000_remove]

end Isa1000
